import Mathlib

/-!
Verification of the PitLink PQC priority-aware chunk delivery simulator
(`MonkOS/prototypes/pitlink_pqc/web/app.js`, functions `weightedStatus`,
`randomFrom` and `generateRun`).

The JavaScript core is embedded shallowly:
* JS numbers are modelled as `ℚ` (all arithmetic in the core is exact on the
  values involved; no rounding-sensitive operations occur).
* The ambient `Math.random()` calls are modelled by an explicit stream
  `rand : ℕ → ℚ` of unit draws, consumed sequentially in exactly the order the
  source draws them (per chunk: outcome roll, path roll, latency jitter,
  display height).
* JS objects used as string-keyed maps (`priorityConfig`, `laneDurations`) are
  association lists preserving key insertion order, matching `Object.keys` /
  `Object.values` enumeration order.
* `Math.max(...[])`, which in JS is `-Infinity`, is modelled by `⊥` in
  `WithBot ℚ`; a finite maximum is `(q : WithBot ℚ)`.
* The duck-typed per-field fallbacks of lines 191-196 are modelled with
  `Option` fields and explicit defaulting functions.
-/

namespace PitLink

/-- Delivery outcome of one simulated chunk: the four strings returned by
`weightedStatus` in the source. -/
inductive OutcomeKind where
  | delivered
  | recovered
  | retransmit
  | dropped
deriving DecidableEq, Inhabited

/-- STATUS_LABELS (source lines 40-45). -/
def STATUS_LABELS : OutcomeKind → String
  | .delivered => "Delivered cleanly"
  | .recovered => "Recovered via Reed-Solomon FEC"
  | .retransmit => "Retransmitted over QUIC"
  | .dropped => "Dropped — manual follow-up"

/-- A per-priority lane configuration record, as in the entries of
`SCENARIOS.*.priorityConfig`. Fields are `Option`s because the source records
are duck-typed and `generateRun` defaults each field individually
(lines 192-196): `none` models an absent field (or, for `baseMs`, a value that
is not a number; for `pathOptions`, a value that is not an array). -/
structure LaneConfig where
  label : Option String
  baseMs : Option ℚ
  pathOptions : Option (List String)
  fec : Option String
deriving DecidableEq, Inhabited

/-- The priority-class → LaneConfig mapping. An association list preserves the
JS object key insertion order used by `Object.keys(priorityConfig)`. -/
abbrev PriorityConfig := List (String × LaneConfig)

/-- JS property lookup `priorityConfig[priority]` (`none` models `undefined`). -/
def lookupConfig (pc : PriorityConfig) (p : String) : Option LaneConfig :=
  (pc.find? (fun kv => decide (kv.1 = p))).map Prod.snd

/-- Source line 191: `const config = priorityConfig[priority] || priorityConfig.P0;`.
A present config record is always truthy, so `||` falls back exactly when the
lookup is `undefined`. -/
def resolveConfig (pc : PriorityConfig) (p : String) : Option LaneConfig :=
  match lookupConfig pc p with
  | some c => some c
  | none => lookupConfig pc "P0"

/-- Source line 192:
`const baseMs = config && typeof config.baseMs === 'number' ? config.baseMs : 120;`. -/
def resolvedBaseMs (pc : PriorityConfig) (p : String) : ℚ :=
  match resolveConfig pc p with
  | some c =>
    match c.baseMs with
    | some b => b
    | none => 120
  | none => 120

/-- Source lines 193-195: `Array.isArray(config?.pathOptions) &&
config.pathOptions.length > 0 ? config.pathOptions : ['Primary link']`. -/
def resolvedPathOptions (pc : PriorityConfig) (p : String) : List String :=
  match resolveConfig pc p with
  | some c =>
    match c.pathOptions with
    | some ps => if 0 < ps.length then ps else ["Primary link"]
    | none => ["Primary link"]
  | none => ["Primary link"]

/-- Source line 196: `const fecCode = config?.fec || 'RS(12,9)';` (an empty
string is falsy in JS, hence also falls back). -/
def resolvedFec (pc : PriorityConfig) (p : String) : String :=
  match resolveConfig pc p with
  | some c =>
    match c.fec with
    | some f => if f = "" then "RS(12,9)" else f
    | none => "RS(12,9)"
  | none => "RS(12,9)"

/-- Source line 234: `label: config?.label || priority` (an empty string is
falsy in JS, hence also falls back to the priority tag). -/
def resolvedLabel (pc : PriorityConfig) (p : String) : String :=
  match resolveConfig pc p with
  | some c =>
    match c.label with
    | some l => if l = "" then p else l
    | none => p
  | none => p

/-- The function `weightedStatus` (source lines 152-170), with the random roll made an
explicit argument: priority-specific cumulative thresholds, any priority other
than "P0"/"P1" using the P2 default bands. -/
def weightedStatus (priority : String) (roll : ℚ) : OutcomeKind :=
  if priority = "P0" then
    if roll < 0.08 then .recovered
    else if roll < 0.11 then .retransmit
    else .delivered
  else if priority = "P1" then
    if roll < 0.1 then .recovered
    else if roll < 0.16 then .retransmit
    else if roll < 0.18 then .dropped
    else .delivered
  else
    if roll < 0.12 then .recovered
    else if roll < 0.22 then .retransmit
    else if roll < 0.28 then .dropped
    else .delivered

/-- The function `randomFrom` (source lines 148-150): `array[Math.floor(r * array.length)]`,
with the random unit `r` explicit. Out-of-range access (impossible for a
nonempty array and `r ∈ [0,1)`) yields `""` in place of JS `undefined`. -/
def randomFrom (array : List String) (r : ℚ) : String :=
  array.getD (Int.toNat ⌊r * (array.length : ℚ)⌋) ""

/-- Source line 211:
`const alternate = pathOptions.find((option) => option !== basePath) || basePath;`.
Note the JS `||`: if the first non-primary entry is the empty string (falsy),
the fallback is `basePath` itself. -/
def chooseFallback (pathOptions : List String) (basePath : String) : String :=
  match pathOptions.find? (fun option => decide (option ≠ basePath)) with
  | some alternate => if alternate = "" then basePath else alternate
  | none => basePath

/-- The per-outcome branch of the chunk loop (source lines 203-221), returning
`(path, note, extraMs)`: the displayed path, the note string, and the latency
added on top of the base effective latency. -/
def chunkOutcome (baseMs : ℚ) (pathOptions : List String) (fecCode : String)
    (status : OutcomeKind) (basePath : String) : String × String × ℚ :=
  match status with
  | .recovered =>
    (basePath, STATUS_LABELS .recovered ++ " (" ++ fecCode ++ " on " ++ basePath ++ ")", 0)
  | .retransmit =>
    let alternate := chooseFallback pathOptions basePath
    (basePath ++ " → " ++ alternate,
      STATUS_LABELS .retransmit ++ " — switched to " ++ alternate,
      baseMs * 0.6)
  | .dropped =>
    (basePath, STATUS_LABELS .dropped ++ " (" ++ fecCode ++ " exhausted)", baseMs)
  | .delivered =>
    (basePath, STATUS_LABELS .delivered ++ " via " ++ basePath, 0)

/-- The latency added by the per-outcome branch, abstracted over the outcome:
`retransmit` adds `baseMs * 0.6` (line 214), `dropped` adds `baseMs`
(line 218), `delivered` and `recovered` add nothing. -/
def outcomeAdj (baseMs : ℚ) : OutcomeKind → ℚ
  | .retransmit => baseMs * 0.6
  | .dropped => baseMs
  | .delivered => 0
  | .recovered => 0

/-- One simulated chunk (the object pushed at source lines 225-235). -/
structure Chunk where
  id : ℕ
  priority : String
  status : OutcomeKind
  height : ℚ
  path : String
  transferMs : ℚ
  fec : String
  note : String
  label : String
deriving DecidableEq, Inhabited

/-- Build the chunk of one loop iteration (source lines 198-235). `idx` is the
already-incremented `chunkIndex`; `rIdx` indexes the next unconsumed random
draw: the source consumes, in order, the outcome roll (line 200), the path
roll (line 201), the latency jitter (line 204) and the height roll (line 229). -/
def mkChunk (rand : ℕ → ℚ) (priority : String) (baseMs : ℚ)
    (pathOptions : List String) (fecCode : String) (label : String)
    (idx rIdx : ℕ) : Chunk :=
  let status := weightedStatus priority (rand rIdx)
  let basePath := randomFrom pathOptions (rand (rIdx + 1))
  let pne := chunkOutcome baseMs pathOptions fecCode status basePath
  { id := idx
    priority := priority
    status := status
    height := 45 + rand (rIdx + 3) * 55
    path := pne.1
    transferMs := baseMs + rand (rIdx + 2) * baseMs * 0.9 + pne.2.2
    fec := fecCode
    note := pne.2.1
    label := label }

/-- JS object read `laneDurations[priority] || 0` (source line 223); a missing
key reads as `undefined`, hence 0, and a stored 0 also yields 0. -/
def getOr0 (m : List (String × ℚ)) (k : String) : ℚ :=
  match m.find? (fun kv => decide (kv.1 = k)) with
  | some kv => kv.2
  | none => 0

/-- JS object write `laneDurations[priority] = v`: update in place when the key
exists, else append (JS string-keyed property insertion order). -/
def setLane (m : List (String × ℚ)) (k : String) (v : ℚ) : List (String × ℚ) :=
  match m with
  | [] => [(k, v)]
  | kv :: rest => if kv.1 = k then (k, v) :: rest else kv :: setLane rest k v

/-- The mutable state threaded through `generateRun`'s bucket loop:
`laneDurations` (line 174), the four outcome tallies of `stats` (lines
179-185), the `chunks` accumulator (line 187), `chunkIndex` (line 188), and
the index of the next unconsumed random draw. -/
structure RunState where
  laneDurations : List (String × ℚ)
  delivered : ℕ
  recovered : ℕ
  retransmit : ℕ
  dropped : ℕ
  chunks : List Chunk
  chunkIndex : ℕ
  rIdx : ℕ
deriving Inhabited

/-- Record one freshly built chunk into the run state: tally its outcome
(lines 206-221), add its effective latency to its lane's running duration
(line 223), push it (line 225), and account for the four random draws it
consumed. -/
def addChunk (st : RunState) (priority : String) (c : Chunk) : RunState :=
  { laneDurations := setLane st.laneDurations priority (getOr0 st.laneDurations priority + c.transferMs)
    delivered := st.delivered + (if c.status = .delivered then 1 else 0)
    recovered := st.recovered + (if c.status = .recovered then 1 else 0)
    retransmit := st.retransmit + (if c.status = .retransmit then 1 else 0)
    dropped := st.dropped + (if c.status = .dropped then 1 else 0)
    chunks := st.chunks ++ [c]
    chunkIndex := st.chunkIndex + 1
    rIdx := st.rIdx + 4 }

/-- One iteration of the inner `for` loop (source lines 198-236). -/
def simChunk (rand : ℕ → ℚ) (priority : String) (baseMs : ℚ)
    (pathOptions : List String) (fecCode : String) (label : String)
    (st : RunState) : RunState :=
  addChunk st priority
    (mkChunk rand priority baseMs pathOptions fecCode label (st.chunkIndex + 1) st.rIdx)

/-- The inner `for (let i = 0; i < count; i += 1)` loop for one bucket. -/
def simLane (rand : ℕ → ℚ) (priority : String) (baseMs : ℚ)
    (pathOptions : List String) (fecCode : String) (label : String) :
    ℕ → RunState → RunState
  | 0, st => st
  | n + 1, st =>
    simLane rand priority baseMs pathOptions fecCode label n
      (simChunk rand priority baseMs pathOptions fecCode label st)

/-- One `buckets.forEach` iteration (source lines 190-237): resolve the bucket
priority's lane configuration field by field, then run the chunk loop. -/
def processBucket (rand : ℕ → ℚ) (pc : PriorityConfig) (st : RunState)
    (bucket : String × ℕ) : RunState :=
  simLane rand bucket.1 (resolvedBaseMs pc bucket.1)
    (resolvedPathOptions pc bucket.1) (resolvedFec pc bucket.1)
    (resolvedLabel pc bucket.1) bucket.2 st

/-- A scenario, restricted to the two fields `generateRun` destructures
(source line 173): the priority → LaneConfig mapping and the ordered batch
list (`buckets`, each a priority tag with a requested chunk count). -/
structure Scenario where
  priorityConfig : PriorityConfig
  buckets : List (String × ℕ)

/-- Source lines 174-177: `Object.keys(priorityConfig).reduce(...)` — every
configured priority starts with a cumulative lane duration of 0. -/
def initLanes (pc : PriorityConfig) : List (String × ℚ) :=
  pc.map (fun kv => (kv.1, 0))

/-- The state at the top of `generateRun`, before the bucket loop. -/
def initState (pc : PriorityConfig) : RunState :=
  { laneDurations := initLanes pc
    delivered := 0
    recovered := 0
    retransmit := 0
    dropped := 0
    chunks := []
    chunkIndex := 0
    rIdx := 0 }

/-- The whole bucket loop of `generateRun` (source lines 190-237). -/
def generateRunAux (scenario : Scenario) (rand : ℕ → ℚ) : RunState :=
  scenario.buckets.foldl (processBucket rand scenario.priorityConfig)
    (initState scenario.priorityConfig)

/-- Source line 240: `Math.max(...Object.values(laneDurations)) / 1000`.
`Math.max` of no arguments is `-Infinity` in JS, modelled by `⊥`; division of
`-Infinity` by 1000 is again `-Infinity`. -/
def jsMaxDiv1000 : List ℚ → WithBot ℚ
  | [] => ⊥
  | v :: vs => ((vs.foldl max v) / 1000 : ℚ)

/-- The `stats` object as returned (source lines 179-185 and 239). -/
structure Stats where
  delivered : ℕ
  recovered : ℕ
  retransmit : ℕ
  dropped : ℕ
  total : ℕ
deriving DecidableEq

/-- The value returned by `generateRun` (source line 245). -/
structure Run where
  chunks : List Chunk
  stats : Stats
  duration : WithBot ℚ
  lossRate : ℚ

/-- The function `generateRun` (source lines 172-246): run the bucket loop, set
`stats.total = chunks.length` (line 239), compute the duration (line 240) and
the loss rate (lines 241-243). -/
def generateRun (scenario : Scenario) (rand : ℕ → ℚ) : Run :=
  let st := generateRunAux scenario rand
  let total := st.chunks.length
  { chunks := st.chunks
    stats :=
      { delivered := st.delivered
        recovered := st.recovered
        retransmit := st.retransmit
        dropped := st.dropped
        total := total }
    duration := jsMaxDiv1000 (st.laneDurations.map Prod.snd)
    lossRate :=
      if 0 < total then
        ((st.recovered : ℚ) + (st.retransmit : ℚ) + (st.dropped : ℚ)) / (total : ℚ)
      else 0 }

end PitLink

namespace PitLink

/-! ### Basic facts about the outcome sampler and the per-outcome branch -/

theorem chunkOutcome_extra (baseMs : ℚ) (pathOptions : List String)
    (fecCode : String) (status : OutcomeKind) (basePath : String) :
    (chunkOutcome baseMs pathOptions fecCode status basePath).2.2 =
      outcomeAdj baseMs status := by
  cases status <;> rfl

theorem outcomeAdj_nonneg (baseMs : ℚ) (status : OutcomeKind) (h : 0 ≤ baseMs) :
    0 ≤ outcomeAdj baseMs status := by
  cases status <;> simp [outcomeAdj] <;> positivity

theorem weightedStatus_P0_ne_dropped (roll : ℚ) :
    weightedStatus "P0" roll ≠ OutcomeKind.dropped := by
  unfold weightedStatus
  norm_num
  split_ifs <;> simp

/-! ### Per-chunk characterisation

`ChunkOk pc rand c` records how every emitted chunk's fields were produced:
its outcome is the sampler applied to its own priority at some draw `n`, its
transfer time is the base effective latency (base plus jitter) plus the
per-outcome adjustment, and its FEC label and display label are the resolved
configuration fields of its priority. -/

def ChunkOk (pc : PriorityConfig) (rand : ℕ → ℚ) (c : Chunk) : Prop :=
  ∃ n, c.status = weightedStatus c.priority (rand n) ∧
    c.transferMs = resolvedBaseMs pc c.priority +
      rand (n + 2) * resolvedBaseMs pc c.priority * 0.9 +
      outcomeAdj (resolvedBaseMs pc c.priority) c.status ∧
    c.fec = resolvedFec pc c.priority ∧
    c.label = resolvedLabel pc c.priority

theorem mkChunk_ok (pc : PriorityConfig) (rand : ℕ → ℚ) (p : String)
    (idx rIdx : ℕ) :
    ChunkOk pc rand (mkChunk rand p (resolvedBaseMs pc p)
      (resolvedPathOptions pc p) (resolvedFec pc p) (resolvedLabel pc p)
      idx rIdx) := by
  refine ⟨rIdx, rfl, ?_, rfl, rfl⟩
  simp only [mkChunk, chunkOutcome_extra]

/-! ### The state invariant of the bucket loop -/

def StateInv (pc : PriorityConfig) (rand : ℕ → ℚ) (st : RunState) : Prop :=
  st.delivered = st.chunks.countP (fun c => decide (c.status = OutcomeKind.delivered)) ∧
  st.recovered = st.chunks.countP (fun c => decide (c.status = OutcomeKind.recovered)) ∧
  st.retransmit = st.chunks.countP (fun c => decide (c.status = OutcomeKind.retransmit)) ∧
  st.dropped = st.chunks.countP (fun c => decide (c.status = OutcomeKind.dropped)) ∧
  st.delivered + st.recovered + st.retransmit + st.dropped = st.chunks.length ∧
  st.chunkIndex = st.chunks.length ∧
  st.chunks.map Chunk.id = List.range' 1 st.chunks.length ∧
  ∀ c ∈ st.chunks, ChunkOk pc rand c

theorem stateInv_initState (pc : PriorityConfig) (rand : ℕ → ℚ) :
    StateInv pc rand (initState pc) := by
  simp [StateInv, initState]

theorem stateInv_addChunk (pc : PriorityConfig) (rand : ℕ → ℚ) (st : RunState)
    (p : String) (c : Chunk) (hInv : StateInv pc rand st)
    (hid : c.id = st.chunkIndex + 1) (hok : ChunkOk pc rand c) :
    StateInv pc rand (addChunk st p c) := by
  obtain ⟨h1, h2, h3, h4, h5, h6, h7, h8⟩ := hInv
  refine ⟨?_, ?_, ?_, ?_, ?_, ?_, ?_, ?_⟩
  · simp [addChunk, List.countP_append, h1, List.countP_cons]
  · simp [addChunk, List.countP_append, h2, List.countP_cons]
  · simp [addChunk, List.countP_append, h3, List.countP_cons]
  · simp [addChunk, List.countP_append, h4, List.countP_cons]
  · simp only [addChunk, List.length_append, List.length_cons, List.length_nil]
    cases hc : c.status <;> simp [hc] <;> omega
  · simp [addChunk, h6]
  · simp only [addChunk, List.map_append, List.length_append, List.map_cons,
      List.map_nil, List.length_cons, List.length_nil, h7, hid, h6]
    rw [List.range'_concat]
    simp
    omega
  · intro c' hc'
    simp only [addChunk, List.mem_append, List.mem_cons, List.not_mem_nil,
      or_false] at hc'
    rcases hc' with h | h
    · exact h8 c' h
    · rw [h]; exact hok

theorem stateInv_simChunk (pc : PriorityConfig) (rand : ℕ → ℚ) (st : RunState)
    (p : String) (hInv : StateInv pc rand st) :
    StateInv pc rand (simChunk rand p (resolvedBaseMs pc p)
      (resolvedPathOptions pc p) (resolvedFec pc p) (resolvedLabel pc p) st) :=
  stateInv_addChunk pc rand st p _ hInv rfl (mkChunk_ok pc rand p _ st.rIdx)

theorem stateInv_simLane (pc : PriorityConfig) (rand : ℕ → ℚ) (p : String)
    (n : ℕ) (st : RunState) (hInv : StateInv pc rand st) :
    StateInv pc rand (simLane rand p (resolvedBaseMs pc p)
      (resolvedPathOptions pc p) (resolvedFec pc p) (resolvedLabel pc p) n st) := by
  induction n generalizing st with
  | zero => exact hInv
  | succ m ih =>
    exact ih _ (stateInv_simChunk pc rand st p hInv)

theorem stateInv_foldl (pc : PriorityConfig) (rand : ℕ → ℚ)
    (buckets : List (String × ℕ)) (st : RunState) (hInv : StateInv pc rand st) :
    StateInv pc rand (buckets.foldl (processBucket rand pc) st) := by
  induction buckets generalizing st with
  | nil => exact hInv
  | cons b bs ih =>
    exact ih _ (stateInv_simLane pc rand b.1 b.2 st hInv)

theorem generateRunAux_inv (s : Scenario) (rand : ℕ → ℚ) :
    StateInv s.priorityConfig rand (generateRunAux s rand) :=
  stateInv_foldl s.priorityConfig rand s.buckets _
    (stateInv_initState s.priorityConfig rand)

end PitLink

namespace PitLink

/-! ### Configured base latencies and transfer-time bounds -/

/-- Every `baseMs` value present in the configuration is nonnegative. -/
def BasesNonneg (pc : PriorityConfig) : Prop :=
  ∀ kv ∈ pc, ∀ b : ℚ, kv.2.baseMs = some b → 0 ≤ b

/-- Every `baseMs` value present in the configuration is positive. -/
def BasesPos (pc : PriorityConfig) : Prop :=
  ∀ kv ∈ pc, ∀ b : ℚ, kv.2.baseMs = some b → 0 < b

theorem lookupConfig_mem (pc : PriorityConfig) (p : String) (c : LaneConfig)
    (h : lookupConfig pc p = some c) : ∃ k, (k, c) ∈ pc := by
  unfold lookupConfig at h
  cases hf : pc.find? (fun kv => decide (kv.1 = p)) with
  | none => rw [hf] at h; simp at h
  | some kv =>
    rw [hf] at h
    simp at h
    refine ⟨kv.1, ?_⟩
    have hm := List.mem_of_find?_eq_some hf
    rwa [← h, Prod.mk.eta]

theorem resolveConfig_mem (pc : PriorityConfig) (p : String) (c : LaneConfig)
    (h : resolveConfig pc p = some c) : ∃ k, (k, c) ∈ pc := by
  unfold resolveConfig at h
  cases hl : lookupConfig pc p with
  | some c' => rw [hl] at h; exact lookupConfig_mem pc p c (hl.trans h)
  | none => rw [hl] at h; exact lookupConfig_mem pc "P0" c h

theorem resolvedBaseMs_nonneg (pc : PriorityConfig) (p : String)
    (h : BasesNonneg pc) : 0 ≤ resolvedBaseMs pc p := by
  cases hr : resolveConfig pc p with
  | none => simp [resolvedBaseMs, hr]
  | some c =>
    cases hb : c.baseMs with
    | none => simp [resolvedBaseMs, hr, hb]
    | some b =>
      obtain ⟨k, hk⟩ := resolveConfig_mem pc p c hr
      have hpos := h (k, c) hk b hb
      simp only [resolvedBaseMs, hr, hb]
      exact hpos

theorem resolvedBaseMs_pos (pc : PriorityConfig) (p : String)
    (h : BasesPos pc) : 0 < resolvedBaseMs pc p := by
  cases hr : resolveConfig pc p with
  | none => simp [resolvedBaseMs, hr]
  | some c =>
    cases hb : c.baseMs with
    | none => simp [resolvedBaseMs, hr, hb]
    | some b =>
      obtain ⟨k, hk⟩ := resolveConfig_mem pc p c hr
      have hpos := h (k, c) hk b hb
      simp only [resolvedBaseMs, hr, hb]
      exact hpos

theorem chunkOk_base_le_transferMs (pc : PriorityConfig) (rand : ℕ → ℚ)
    (c : Chunk) (hok : ChunkOk pc rand c) (hr : ∀ n, 0 ≤ rand n)
    (hb : 0 ≤ resolvedBaseMs pc c.priority) :
    resolvedBaseMs pc c.priority ≤ c.transferMs := by
  obtain ⟨n, _, ht, _, _⟩ := hok
  rw [ht]
  have hj : 0 ≤ rand (n + 2) * resolvedBaseMs pc c.priority * 0.9 := by
    have := mul_nonneg (hr (n + 2)) hb
    nlinarith
  have ha : 0 ≤ outcomeAdj (resolvedBaseMs pc c.priority) c.status :=
    outcomeAdj_nonneg _ _ hb
  linarith

/-! ### Lane-duration bookkeeping -/

/-- All cumulative lane durations in the state are nonnegative. -/
def LanesNonneg (st : RunState) : Prop :=
  ∀ kv ∈ st.laneDurations, 0 ≤ kv.2

theorem getOr0_nonneg (m : List (String × ℚ)) (k : String)
    (h : ∀ kv ∈ m, 0 ≤ kv.2) : 0 ≤ getOr0 m k := by
  unfold getOr0
  cases hf : m.find? (fun kv => decide (kv.1 = k)) with
  | none => norm_num
  | some kv => exact h kv (List.mem_of_find?_eq_some hf)

theorem mem_setLane (m : List (String × ℚ)) (k : String) (v : ℚ) :
    ∀ kv ∈ setLane m k v, kv ∈ m ∨ kv = (k, v) := by
  induction m with
  | nil => intro kv h; simp [setLane] at h; right; simp [h]
  | cons a m ih =>
    intro kv h
    simp only [setLane] at h
    by_cases hk : a.1 = k
    · rw [if_pos hk] at h
      rcases List.mem_cons.mp h with h | h
      · right; simp [h]
      · left; exact List.mem_cons_of_mem a h
    · rw [if_neg hk] at h
      rcases List.mem_cons.mp h with h | h
      · left; rw [h]; exact List.mem_cons_self a m
      · rcases ih kv h with h' | h'
        · left; exact List.mem_cons_of_mem a h'
        · right; exact h'

theorem setLane_length (m : List (String × ℚ)) (k : String) (v : ℚ) :
    m.length ≤ (setLane m k v).length := by
  induction m with
  | nil => simp [setLane]
  | cons a m ih =>
    simp only [setLane]
    by_cases hk : a.1 = k
    · rw [if_pos hk]; simp
    · rw [if_neg hk]; simpa using ih

theorem lanesNonneg_addChunk (st : RunState) (p : String) (c : Chunk)
    (h : LanesNonneg st) (hc : 0 ≤ c.transferMs) :
    LanesNonneg (addChunk st p c) := by
  intro kv hkv
  simp only [addChunk] at hkv
  rcases mem_setLane _ _ _ kv hkv with h' | h'
  · exact h kv h'
  · rw [h']
    exact add_nonneg (getOr0_nonneg _ _ h) hc

theorem mkChunk_transferMs_nonneg (pc : PriorityConfig) (rand : ℕ → ℚ)
    (p : String) (idx rIdx : ℕ) (hr : ∀ n, 0 ≤ rand n)
    (hb : BasesNonneg pc) :
    0 ≤ (mkChunk rand p (resolvedBaseMs pc p) (resolvedPathOptions pc p)
      (resolvedFec pc p) (resolvedLabel pc p) idx rIdx).transferMs := by
  have hok := mkChunk_ok pc rand p idx rIdx
  have hpri : (mkChunk rand p (resolvedBaseMs pc p) (resolvedPathOptions pc p)
      (resolvedFec pc p) (resolvedLabel pc p) idx rIdx).priority = p := rfl
  have h0 : 0 ≤ resolvedBaseMs pc p := resolvedBaseMs_nonneg pc p hb
  have := chunkOk_base_le_transferMs pc rand _ hok hr (by rw [hpri]; exact h0)
  rw [hpri] at this
  linarith

theorem lanesNonneg_simLane (pc : PriorityConfig) (rand : ℕ → ℚ) (p : String)
    (n : ℕ) (st : RunState) (h : LanesNonneg st) (hr : ∀ k, 0 ≤ rand k)
    (hb : BasesNonneg pc) :
    LanesNonneg (simLane rand p (resolvedBaseMs pc p)
      (resolvedPathOptions pc p) (resolvedFec pc p) (resolvedLabel pc p) n st) := by
  induction n generalizing st with
  | zero => exact h
  | succ m ih =>
    refine ih _ ?_
    exact lanesNonneg_addChunk st p _ h
      (mkChunk_transferMs_nonneg pc rand p _ _ hr hb)

theorem lanesNonneg_generateRunAux (s : Scenario) (rand : ℕ → ℚ)
    (hr : ∀ k, 0 ≤ rand k) (hb : BasesNonneg s.priorityConfig) :
    LanesNonneg (generateRunAux s rand) := by
  unfold generateRunAux
  have hinit : LanesNonneg (initState s.priorityConfig) := by
    intro kv hkv
    simp only [initState, initLanes, List.mem_map] at hkv
    obtain ⟨a, _, ha⟩ := hkv
    rw [← ha]
  generalize initState s.priorityConfig = st at hinit ⊢
  induction s.buckets generalizing st with
  | nil => exact hinit
  | cons b bs ih =>
    exact ih _ (lanesNonneg_simLane s.priorityConfig rand b.1 b.2 st hinit hr hb)

theorem lanes_length_simLane (rand : ℕ → ℚ) (p : String) (B : ℚ)
    (P : List String) (F L : String) (n : ℕ) (st : RunState) :
    st.laneDurations.length ≤ (simLane rand p B P F L n st).laneDurations.length := by
  induction n generalizing st with
  | zero => exact le_refl _
  | succ m ih =>
    refine le_trans ?_ (ih (simChunk rand p B P F L st))
    exact setLane_length st.laneDurations p _

theorem lanes_length_generateRunAux (s : Scenario) (rand : ℕ → ℚ) :
    s.priorityConfig.length ≤ (generateRunAux s rand).laneDurations.length := by
  unfold generateRunAux
  have hinit : s.priorityConfig.length ≤ (initState s.priorityConfig).laneDurations.length := by
    simp [initState, initLanes]
  generalize initState s.priorityConfig = st at hinit ⊢
  induction s.buckets generalizing st with
  | nil => exact hinit
  | cons b bs ih =>
    refine ih _ (le_trans hinit ?_)
    exact lanes_length_simLane rand b.1 _ _ _ _ b.2 st

theorem foldl_max_nonneg (l : List ℚ) (v : ℚ) (hv : 0 ≤ v) :
    0 ≤ l.foldl max v := by
  induction l generalizing v with
  | nil => exact hv
  | cons a l ih =>
    exact ih _ (le_trans hv (le_max_left v a))

theorem jsMaxDiv1000_nonneg (l : List ℚ) (hne : l ≠ [])
    (h : ∀ x ∈ l, 0 ≤ x) :
    (0 : WithBot ℚ) ≤ jsMaxDiv1000 l ∧ jsMaxDiv1000 l ≠ ⊥ := by
  cases l with
  | nil => exact absurd rfl hne
  | cons v vs =>
    simp only [jsMaxDiv1000]
    constructor
    · have hq : 0 ≤ (vs.foldl max v) / 1000 :=
        div_nonneg (foldl_max_nonneg vs v (h v (List.mem_cons_self v vs))) (by norm_num)
      exact_mod_cast hq
    · exact WithBot.coe_ne_bot

end PitLink

namespace PitLink

/-! ### Concrete fixtures used by witnesses and counterexamples -/

/-- A concrete lane configuration: base 48ms, paths ["A","B"], FEC "RS(12,9)"
(the LaneConfig of the spec's literal one-chunk scenario). -/
def cfgA : LaneConfig :=
  { label := none, baseMs := some 48, pathOptions := some ["A", "B"], fec := some "RS(12,9)" }

/-- A one-batch scenario: P0 configured as `cfgA`, one chunk requested. -/
def sA : Scenario := { priorityConfig := [("P0", cfgA)], buckets := [("P0", 1)] }

/-- The all-zero random stream. -/
def randZero : ℕ → ℚ := fun _ => 0

/-- The random stream of the spec's literal scenario: outcome draw 1/2, all
other draws (path, jitter, height) 0. -/
def rand9 : ℕ → ℚ := fun n => if n = 0 then 1/2 else 0

/-- The constant-1/2 random stream. -/
def randHalf : ℕ → ℚ := fun _ => 1/2

/-- A single-path configuration under P0 with a distinctive FEC label. -/
def cfgX : LaneConfig :=
  { label := none, baseMs := some 48, pathOptions := some ["X"], fec := some "RS(20,16)" }

/-- A scenario whose single batch references the unconfigured priority "P3"
while "P0" is configured as `cfgX`. -/
def sX : Scenario := { priorityConfig := [("P0", cfgX)], buckets := [("P3", 1)] }

/-- The single chunk produced by `generateRun sA randZero`. -/
def chunkA : Chunk :=
  { id := 1, priority := "P0", status := .recovered, height := 45, path := "A",
    transferMs := 48, fec := "RS(12,9)",
    note := "Recovered via Reed-Solomon FEC (RS(12,9) on A)", label := "P0" }

theorem chunksA_eq : (generateRun sA randZero).chunks = [chunkA] := by
  norm_num [generateRun, generateRunAux, processBucket, simLane, simChunk, addChunk,
    mkChunk, initState, initLanes, resolvedBaseMs, resolveConfig, lookupConfig,
    resolvedPathOptions, resolvedFec, resolvedLabel, weightedStatus, randomFrom,
    chunkOutcome, chooseFallback, getOr0, setLane, STATUS_LABELS, sA, cfgA,
    randZero, chunkA]
  rfl

/-! ### C1 — P0 is never dropped -/

/-- C1: for every random draw, the outcome sampler applied to priority P0 never
returns `dropped`; consequently, in every run, no chunk with priority "P0" has
outcome `dropped`. -/
theorem C1_p0_never_dropped :
    (∀ roll : ℚ, weightedStatus "P0" roll ≠ OutcomeKind.dropped) ∧
    (∀ (s : Scenario) (rand : ℕ → ℚ) (c : Chunk),
      c ∈ (generateRun s rand).chunks → c.priority = "P0" →
      c.status ≠ OutcomeKind.dropped) := by
  refine ⟨weightedStatus_P0_ne_dropped, ?_⟩
  intro s rand c hc hp
  obtain ⟨_, _, _, _, _, _, _, hok⟩ := generateRunAux_inv s rand
  obtain ⟨n, hs, _⟩ := hok c hc
  rw [hs, hp]
  exact weightedStatus_P0_ne_dropped _

/-- Witness for C1 at the concrete run `generateRun sA randZero`. -/
theorem C1_witness : chunkA.status ≠ OutcomeKind.dropped :=
  C1_p0_never_dropped.2 sA randZero chunkA
    (by rw [chunksA_eq]; exact List.mem_singleton_self chunkA) rfl

/-! ### C4 — sampler band structure and literal values -/

/-- Modelled from the spec's band table (section 4.1): cumulative probability
bands applied in the kind order recovered → retransmit → dropped → delivered,
first matching band winning, everything else falling through to `delivered`. -/
def applyBandsSpec (recUp retUp dropUp : ℚ) (r : ℚ) : OutcomeKind :=
  if r < recUp then .recovered
  else if r < retUp then .retransmit
  else if r < dropUp then .dropped
  else .delivered

/-- The spec's per-priority cumulative thresholds; P0's dropped band is empty,
expressed by an upper bound equal to the retransmit bound. Any priority other
than "P0"/"P1" uses the default (P2) bands. -/
def bandsSpec (p : String) : ℚ × ℚ × ℚ :=
  if p = "P0" then (0.08, 0.11, 0.11)
  else if p = "P1" then (0.1, 0.16, 0.18)
  else (0.12, 0.22, 0.28)

/-- C4: the outcome sampler coincides with the spec's first-match cumulative
band table for every priority and draw, and takes the four literal values the
spec lists: sample(P0, 0.05) = recovered, sample(P0, 0.50) = delivered,
sample(P1, 0.17) = dropped, sample(P2, 0.25) = dropped. -/
theorem weightedStatus_P0 (r : ℚ) :
    weightedStatus "P0" r =
      (if r < 0.08 then .recovered else if r < 0.11 then .retransmit
       else .delivered) := by
  unfold weightedStatus
  rw [if_pos rfl]

theorem weightedStatus_P1 (r : ℚ) :
    weightedStatus "P1" r =
      (if r < 0.1 then .recovered else if r < 0.16 then .retransmit
       else if r < 0.18 then .dropped else .delivered) := by
  unfold weightedStatus
  rw [if_neg (by decide), if_pos rfl]

theorem weightedStatus_other (p : String) (h0 : p ≠ "P0") (h1 : p ≠ "P1")
    (r : ℚ) :
    weightedStatus p r =
      (if r < 0.12 then .recovered else if r < 0.22 then .retransmit
       else if r < 0.28 then .dropped else .delivered) := by
  unfold weightedStatus
  rw [if_neg h0, if_neg h1]

theorem bandsSpec_P0 : bandsSpec "P0" = (0.08, 0.11, 0.11) := by
  unfold bandsSpec
  rw [if_pos rfl]

theorem bandsSpec_P1 : bandsSpec "P1" = (0.1, 0.16, 0.18) := by
  unfold bandsSpec
  rw [if_neg (by decide), if_pos rfl]

theorem bandsSpec_other (p : String) (h0 : p ≠ "P0") (h1 : p ≠ "P1") :
    bandsSpec p = (0.12, 0.22, 0.28) := by
  unfold bandsSpec
  rw [if_neg h0, if_neg h1]

/-- C4: the outcome sampler coincides with the spec's first-match cumulative
band table for every priority and draw, and takes the four literal values the
spec lists: sample(P0, 0.05) = recovered, sample(P0, 0.50) = delivered,
sample(P1, 0.17) = dropped, sample(P2, 0.25) = dropped. -/
theorem C4_sampler_bands :
    (∀ (p : String) (r : ℚ),
      weightedStatus p r =
        applyBandsSpec (bandsSpec p).1 (bandsSpec p).2.1 (bandsSpec p).2.2 r) ∧
    weightedStatus "P0" 0.05 = OutcomeKind.recovered ∧
    weightedStatus "P0" 0.5 = OutcomeKind.delivered ∧
    weightedStatus "P1" 0.17 = OutcomeKind.dropped ∧
    weightedStatus "P2" 0.25 = OutcomeKind.dropped := by
  refine ⟨?_, by rw [weightedStatus_P0]; norm_num,
    by rw [weightedStatus_P0]; norm_num,
    by rw [weightedStatus_P1]; norm_num,
    by rw [weightedStatus_other "P2" (by decide) (by decide)]; norm_num⟩
  intro p r
  by_cases h0 : p = "P0"
  · subst h0
    rw [weightedStatus_P0, bandsSpec_P0]
    unfold applyBandsSpec
    norm_num
    split_ifs <;> simp_all
  · by_cases h1 : p = "P1"
    · subst h1
      rw [weightedStatus_P1, bandsSpec_P1]
      rfl
    · rw [weightedStatus_other p h0 h1, bandsSpec_other p h0 h1]
      rfl

end PitLink

namespace PitLink

/-! ### C5, C6, C7 — run statistics -/

/-- C5: in every run the four outcome counters partition the chunks: each
counter tallies exactly the chunks with its outcome, their sum equals
`stats.total`, and `stats.total` equals the length of the emitted chunk
sequence (each chunk carrying exactly one OutcomeKind by construction). -/
theorem C5_outcome_totals :
    ∀ (s : Scenario) (rand : ℕ → ℚ),
      (generateRun s rand).stats.delivered + (generateRun s rand).stats.recovered +
          (generateRun s rand).stats.retransmit + (generateRun s rand).stats.dropped =
        (generateRun s rand).stats.total ∧
      (generateRun s rand).stats.total = (generateRun s rand).chunks.length ∧
      (generateRun s rand).stats.delivered =
        (generateRun s rand).chunks.countP (fun c => decide (c.status = OutcomeKind.delivered)) ∧
      (generateRun s rand).stats.recovered =
        (generateRun s rand).chunks.countP (fun c => decide (c.status = OutcomeKind.recovered)) ∧
      (generateRun s rand).stats.retransmit =
        (generateRun s rand).chunks.countP (fun c => decide (c.status = OutcomeKind.retransmit)) ∧
      (generateRun s rand).stats.dropped =
        (generateRun s rand).chunks.countP (fun c => decide (c.status = OutcomeKind.dropped)) := by
  intro s rand
  obtain ⟨h1, h2, h3, h4, h5, _, _, _⟩ := generateRunAux_inv s rand
  exact ⟨h5, rfl, h1, h2, h3, h4⟩

/-- C6: chunk ids are 1-based and strictly increasing with no gaps across the
whole run, in batch-then-within-lane emission order: the k-th emitted chunk
(1-based) has id k. -/
theorem C6_chunk_ids :
    ∀ (s : Scenario) (rand : ℕ → ℚ),
      (generateRun s rand).chunks.map Chunk.id =
        List.range' 1 (generateRun s rand).chunks.length := by
  intro s rand
  obtain ⟨_, _, _, _, _, _, h7, _⟩ := generateRunAux_inv s rand
  exact h7

theorem lossRate_bounds (s : Scenario) (rand : ℕ → ℚ) :
    0 ≤ (generateRun s rand).lossRate ∧ (generateRun s rand).lossRate ≤ 1 := by
  obtain ⟨_, _, _, _, h5, _, _, _⟩ := generateRunAux_inv s rand
  have hgen : (generateRun s rand).lossRate =
      (if 0 < (generateRunAux s rand).chunks.length then
        (((generateRunAux s rand).recovered : ℚ) + ((generateRunAux s rand).retransmit : ℚ) +
          ((generateRunAux s rand).dropped : ℚ)) / ((generateRunAux s rand).chunks.length : ℚ)
      else 0) := rfl
  rw [hgen]
  split_ifs with hT
  · have hle : (generateRunAux s rand).recovered + (generateRunAux s rand).retransmit +
        (generateRunAux s rand).dropped ≤ (generateRunAux s rand).chunks.length := by omega
    have hpos : (0 : ℚ) < ((generateRunAux s rand).chunks.length : ℚ) := by
      exact_mod_cast hT
    constructor
    · positivity
    · rw [div_le_one hpos]
      exact_mod_cast hle
  · norm_num

/-- C7: the loss rate is (recovered + retransmit + dropped) / total when
total > 0 and 0 when total = 0, and always lies in [0, 1]. -/
theorem C7_lossRate :
    ∀ (s : Scenario) (rand : ℕ → ℚ),
      (generateRun s rand).lossRate =
        (if 0 < (generateRun s rand).stats.total then
          (((generateRun s rand).stats.recovered : ℚ) +
            ((generateRun s rand).stats.retransmit : ℚ) +
            ((generateRun s rand).stats.dropped : ℚ)) /
            ((generateRun s rand).stats.total : ℚ)
        else 0) ∧
      0 ≤ (generateRun s rand).lossRate ∧ (generateRun s rand).lossRate ≤ 1 := by
  intro s rand
  exact ⟨rfl, lossRate_bounds s rand⟩

end PitLink

namespace PitLink

/-! ### C9 — latency model and the spec's literal one-chunk scenario -/

/-- C9: every chunk's transfer time is the base effective latency
(`baseLatencyMs` plus the jitter draw scaled into `[0, baseLatencyMs*0.9)`)
plus the per-outcome adjustment; the adjustment is 0 for delivered and
recovered, `baseLatencyMs*0.6` for retransmit and `baseLatencyMs` for dropped;
and the spec's literal scenario — batches [(P0,1)], base 48, paths ["A","B"],
outcome draw 0.5, path draw 0, jitter 0 — yields exactly one chunk with id 1,
outcome delivered, path "A" and transferMs 48. -/
theorem C9_latency_model :
    (∀ (rand : ℕ → ℚ) (p : String) (baseMs : ℚ) (paths : List String)
        (fec lab : String) (idx rIdx : ℕ),
      (mkChunk rand p baseMs paths fec lab idx rIdx).transferMs =
        baseMs + rand (rIdx + 2) * baseMs * 0.9 +
          outcomeAdj baseMs (mkChunk rand p baseMs paths fec lab idx rIdx).status) ∧
    (∀ (rand : ℕ → ℚ) (p : String) (baseMs : ℚ) (paths : List String)
        (fec lab : String) (idx rIdx : ℕ),
      0 ≤ rand (rIdx + 2) → rand (rIdx + 2) < 1 → 0 < baseMs →
      baseMs ≤ (mkChunk rand p baseMs paths fec lab idx rIdx).transferMs -
          outcomeAdj baseMs (mkChunk rand p baseMs paths fec lab idx rIdx).status ∧
        (mkChunk rand p baseMs paths fec lab idx rIdx).transferMs -
          outcomeAdj baseMs (mkChunk rand p baseMs paths fec lab idx rIdx).status <
          baseMs + baseMs * 0.9) ∧
    (∀ b : ℚ, outcomeAdj b .delivered = 0 ∧ outcomeAdj b .recovered = 0 ∧
      outcomeAdj b .retransmit = b * 0.6 ∧ outcomeAdj b .dropped = b) ∧
    (generateRun sA rand9).chunks.map
        (fun c => (c.id, c.priority, c.status, c.path, c.transferMs)) =
      [(1, "P0", OutcomeKind.delivered, "A", (48 : ℚ))] := by
  have hdecomp : ∀ (rand : ℕ → ℚ) (p : String) (baseMs : ℚ) (paths : List String)
      (fec lab : String) (idx rIdx : ℕ),
      (mkChunk rand p baseMs paths fec lab idx rIdx).transferMs =
        baseMs + rand (rIdx + 2) * baseMs * 0.9 +
          outcomeAdj baseMs (mkChunk rand p baseMs paths fec lab idx rIdx).status := by
    intro rand p baseMs paths fec lab idx rIdx
    simp only [mkChunk, chunkOutcome_extra]
  refine ⟨hdecomp, ?_, fun b => ⟨rfl, rfl, rfl, rfl⟩, ?_⟩
  · intro rand p baseMs paths fec lab idx rIdx h0 h1 hb
    rw [hdecomp rand p baseMs paths fec lab idx rIdx]
    simp only [add_sub_cancel_right]
    constructor <;> nlinarith
  · norm_num [generateRun, generateRunAux, processBucket, simLane, simChunk, addChunk,
      mkChunk, initState, initLanes, resolvedBaseMs, resolveConfig, lookupConfig,
      resolvedPathOptions, resolvedFec, resolvedLabel, weightedStatus, randomFrom,
      chunkOutcome, chooseFallback, getOr0, setLane, STATUS_LABELS, sA, cfgA, rand9]

/-- Witness for C9's jitter-range bounds at a concrete draw stream. -/
theorem C9_witness :
    (48 : ℚ) ≤ (mkChunk randHalf "P0" 48 ["A"] "F" "L" 1 0).transferMs -
        outcomeAdj 48 (mkChunk randHalf "P0" 48 ["A"] "F" "L" 1 0).status ∧
      (mkChunk randHalf "P0" 48 ["A"] "F" "L" 1 0).transferMs -
        outcomeAdj 48 (mkChunk randHalf "P0" 48 ["A"] "F" "L" 1 0).status <
        48 + 48 * 0.9 :=
  C9_latency_model.2.1 randHalf "P0" 48 ["A"] "F" "L" 1 0
    (by norm_num [randHalf]) (by norm_num [randHalf]) (by norm_num)

/-! ### C10 — transfer time dominates the lane's base latency -/

/-- C10 (implicit): with draws in [0,1) and positive configured base latencies,
every emitted chunk's transfer time is at least its lane's resolved
baseLatencyMs, hence strictly positive — stronger than the spec's
`transferMs >= 0`. -/
theorem C10_transfer_at_least_base :
    ∀ (s : Scenario) (rand : ℕ → ℚ), (∀ n, 0 ≤ rand n) →
      BasesPos s.priorityConfig →
      ∀ c ∈ (generateRun s rand).chunks,
        resolvedBaseMs s.priorityConfig c.priority ≤ c.transferMs ∧
          0 < c.transferMs := by
  intro s rand hr hb c hc
  obtain ⟨_, _, _, _, _, _, _, hok⟩ := generateRunAux_inv s rand
  have hBpos := resolvedBaseMs_pos s.priorityConfig c.priority hb
  have hle := chunkOk_base_le_transferMs s.priorityConfig rand c (hok c hc) hr
    (le_of_lt hBpos)
  exact ⟨hle, lt_of_lt_of_le hBpos hle⟩

theorem basesPos_sA : BasesPos sA.priorityConfig := by
  intro kv hkv b hbv
  simp only [sA, List.mem_singleton] at hkv
  subst hkv
  simp only [cfgA, Option.some.injEq] at hbv
  rw [← hbv]
  norm_num

/-- Witness for C10 at the concrete run `generateRun sA randZero`. -/
theorem C10_witness :
    resolvedBaseMs sA.priorityConfig chunkA.priority ≤ chunkA.transferMs ∧
      0 < chunkA.transferMs :=
  C10_transfer_at_least_base sA randZero (fun _ => le_refl 0) basesPos_sA
    chunkA (by rw [chunksA_eq]; exact List.mem_singleton_self chunkA)

end PitLink

namespace PitLink

/-! ### C2 — unknown-priority fallback -/

/-- Counterexample to C2 as stated: the batch priority "P3" has no entry in the
mapping, but because "P0" is configured the source's line 191
(`priorityConfig[priority] || priorityConfig.P0`) resolves to P0's LaneConfig,
not the documented default: the chunk gets path "X", FEC "RS(20,16)" and
transfer time 48 (base 48, zero jitter) instead of "Primary link" / "RS(12,9)"
/ base 120. -/
theorem C2_cex :
    lookupConfig sX.priorityConfig "P3" = none ∧
    (generateRun sX randZero).chunks.map (fun c => (c.path, c.fec, c.transferMs)) =
      [("X", "RS(20,16)", (48 : ℚ))] ∧
    ("X" : String) ≠ "Primary link" ∧ ("RS(20,16)" : String) ≠ "RS(12,9)" ∧
    (48 : ℚ) ≠ 120 := by
  refine ⟨rfl, ?_, by decide, by decide, by norm_num⟩
  norm_num [generateRun, generateRunAux, processBucket, simLane, simChunk, addChunk,
    mkChunk, initState, initLanes, resolvedBaseMs, resolveConfig, lookupConfig,
    resolvedPathOptions, resolvedFec, resolvedLabel, weightedStatus, randomFrom,
    chunkOutcome, chooseFallback, getOr0, setLane, STATUS_LABELS, sX, cfgX, randZero,
    show ("P0" : String) ≠ "P3" from by decide,
    show ("P3" : String) ≠ "P0" from by decide,
    show ("P3" : String) ≠ "P1" from by decide,
    show ("RS(20,16)" : String) ≠ "" from by decide]

/-- C2 (amended): a batch priority with no entry in the mapping resolves to the
P0 entry's LaneConfig; only when P0 is also unconfigured do the documented
per-field defaults apply — base latency 120, single path "Primary link", FEC
"RS(12,9)" — and then every chunk of such a batch carries FEC "RS(12,9)" and
the priority tag as its label; in all cases a Run is produced (no failure). -/
theorem C2_default_config :
    ∀ (pc : PriorityConfig) (p : String), lookupConfig pc p = none →
      (resolveConfig pc p = lookupConfig pc "P0") ∧
      (lookupConfig pc "P0" = none →
        resolvedBaseMs pc p = 120 ∧
        resolvedPathOptions pc p = ["Primary link"] ∧
        resolvedFec pc p = "RS(12,9)" ∧
        ∀ (buckets : List (String × ℕ)) (rand : ℕ → ℚ),
          ∀ c ∈ (generateRun (Scenario.mk pc buckets) rand).chunks,
            c.priority = p → c.fec = "RS(12,9)" ∧ c.label = p) := by
  intro pc p hp
  have hres : resolveConfig pc p = lookupConfig pc "P0" := by
    unfold resolveConfig
    rw [hp]
  refine ⟨hres, ?_⟩
  intro hp0
  have hres0 : resolveConfig pc p = none := hres.trans hp0
  refine ⟨by simp [resolvedBaseMs, hres0], by simp [resolvedPathOptions, hres0],
    by simp [resolvedFec, hres0], ?_⟩
  intro buckets rand c hc hcp
  obtain ⟨_, _, _, _, _, _, _, hok⟩ := generateRunAux_inv (Scenario.mk pc buckets) rand
  obtain ⟨n, _, _, hfec, hlab⟩ := hok c hc
  constructor
  · rw [hfec, hcp]
    simp [resolvedFec, hres0]
  · rw [hlab, hcp]
    simp [resolvedLabel, hres0]

/-- Witness for C2 (amended) at the empty mapping and priority "P3". -/
theorem C2_witness :
    resolvedBaseMs [] "P3" = 120 ∧
      resolvedPathOptions [] "P3" = ["Primary link"] ∧
      resolvedFec [] "P3" = "RS(12,9)" :=
  ⟨((C2_default_config [] "P3" rfl).2 rfl).1,
   ((C2_default_config [] "P3" rfl).2 rfl).2.1,
   ((C2_default_config [] "P3" rfl).2 rfl).2.2.1⟩

/-! ### C3 — run duration -/

/-- Counterexample to C3 as stated: with an empty lane-configuration mapping
and no batches, line 240 computes `Math.max()` of no values, which in JS is
`-Infinity` (modelled by `⊥`), so `durationSeconds` is not 0 and not ≥ 0. -/
theorem C3_cex :
    (generateRun (Scenario.mk [] []) (fun _ => 0)).duration = ⊥ ∧
      ((⊥ : WithBot ℚ) ≠ 0) :=
  ⟨rfl, by decide⟩

theorem basesNonneg_sA : BasesNonneg sA.priorityConfig := by
  intro kv hkv b hbv
  simp only [sA, List.mem_singleton] at hkv
  subst hkv
  simp only [cfgA, Option.some.injEq] at hbv
  rw [← hbv]
  norm_num

/-- C3 (amended): `durationSeconds` is the maximum of the per-lane cumulative
transfer totals divided by 1000; whenever at least one lane exists (the
mapping is nonempty) it is a finite nonnegative value (given draws ≥ 0 and
nonnegative configured base latencies); but when the mapping is empty and
there are no batches it is `-Infinity` (JS `Math.max()` of no values), not 0. -/
theorem C3_duration :
    ∀ (s : Scenario) (rand : ℕ → ℚ), (∀ n, 0 ≤ rand n) →
      BasesNonneg s.priorityConfig →
      ((generateRun s rand).duration =
        jsMaxDiv1000 ((generateRunAux s rand).laneDurations.map Prod.snd)) ∧
      (s.priorityConfig ≠ [] →
        (0 : WithBot ℚ) ≤ (generateRun s rand).duration ∧
          (generateRun s rand).duration ≠ ⊥) ∧
      (s.priorityConfig = [] → s.buckets = [] →
        (generateRun s rand).duration = ⊥) := by
  intro s rand hr hb
  refine ⟨rfl, ?_, ?_⟩
  · intro hpc
    have hlen := lanes_length_generateRunAux s rand
    have hnn := lanesNonneg_generateRunAux s rand hr hb
    have hne : (generateRunAux s rand).laneDurations.map Prod.snd ≠ [] := by
      intro h
      have hlen0 := congrArg List.length h
      simp only [List.length_map, List.length_nil] at hlen0
      have hpcl : 0 < s.priorityConfig.length := List.length_pos.mpr hpc
      omega
    have hall : ∀ x ∈ (generateRunAux s rand).laneDurations.map Prod.snd, 0 ≤ x := by
      intro x hx
      obtain ⟨kv, hkv, hkx⟩ := List.mem_map.mp hx
      rw [← hkx]
      exact hnn kv hkv
    exact jsMaxDiv1000_nonneg _ hne hall
  · intro hpc hbk
    show jsMaxDiv1000 ((generateRunAux s rand).laneDurations.map Prod.snd) = ⊥
    unfold generateRunAux
    rw [hbk]
    simp [initState, initLanes, hpc, jsMaxDiv1000]

/-- Witness for C3 (amended): a nonempty mapping gives a finite nonnegative
duration; the empty mapping with no batches gives `⊥`. -/
theorem C3_witness :
    ((0 : WithBot ℚ) ≤ (generateRun sA randZero).duration ∧
      (generateRun sA randZero).duration ≠ ⊥) ∧
    (generateRun (Scenario.mk [] []) randZero).duration = ⊥ :=
  ⟨(C3_duration sA randZero (fun _ => le_refl 0) basesNonneg_sA).2.1
      (by simp [sA]),
   (C3_duration (Scenario.mk [] []) randZero (fun _ => le_refl 0)
      (by intro kv hkv; simp at hkv)).2.2 rfl rfl⟩

/-! ### C8 — fallback path selection -/

/-- Counterexample to C8 as stated: for paths ["", "B"] with primary "B", the
first entry of the list not equal to the primary is the empty string, yet the
source's `|| basePath` (line 211) treats it as falsy and returns the primary
"B" instead of it. -/
theorem C8_cex :
    (["", "B"].filter (fun o => decide (o ≠ "B"))).head? = some "" ∧
      chooseFallback ["", "B"] "B" = "B" ∧ ("B" : String) ≠ "" := by
  decide

theorem chooseFallback_single (p : String) : chooseFallback [p] p = p := by
  simp [chooseFallback]

/-- C8 (amended): the fallback is the first entry not equal to the primary
provided that entry is a non-empty string; if that entry is the empty string
(falsy in JS), or every entry equals the primary, the primary itself is
returned; hence a single-path lane's retransmit chunk displays the degenerate
path "{p} → {p}" and no error occurs. -/
theorem C8_fallback :
    (∀ (paths : List String) (primary a : String),
      paths.find? (fun o => decide (o ≠ primary)) = some a → a ≠ "" →
        chooseFallback paths primary = a) ∧
    (∀ (paths : List String) (primary : String),
      paths.find? (fun o => decide (o ≠ primary)) = none →
        chooseFallback paths primary = primary) ∧
    (∀ (paths : List String) (primary : String),
      paths.find? (fun o => decide (o ≠ primary)) = some "" →
        chooseFallback paths primary = primary) ∧
    (∀ primary : String, chooseFallback [primary] primary = primary) ∧
    (∀ (baseMs : ℚ) (fec p : String),
      (chunkOutcome baseMs [p] fec .retransmit p).1 = p ++ " → " ++ p) := by
  refine ⟨?_, ?_, ?_, chooseFallback_single, ?_⟩
  · intro paths primary a hf ha
    unfold chooseFallback
    rw [hf]
    show (if a = "" then primary else a) = a
    rw [if_neg ha]
  · intro paths primary hf
    unfold chooseFallback
    rw [hf]
  · intro paths primary hf
    unfold chooseFallback
    rw [hf]
    show (if ("" : String) = "" then primary else "") = primary
    rw [if_pos rfl]
  · intro baseMs fec p
    show p ++ " → " ++ chooseFallback [p] p = p ++ " → " ++ p
    rw [chooseFallback_single]

/-- Witness for C8 (amended) at concrete path lists. -/
theorem C8_witness :
    chooseFallback ["A", "B"] "A" = "B" ∧ chooseFallback ["A"] "A" = "A" ∧
      (chunkOutcome 48 ["A"] "F" .retransmit "A").1 = "A" ++ " → " ++ "A" :=
  ⟨C8_fallback.1 ["A", "B"] "A" "B" (by decide) (by decide),
   C8_fallback.2.2.2.1 "A",
   C8_fallback.2.2.2.2 48 "F" "A"⟩

end PitLink
